import Mathlib

/-!
Verification of the AI Travel Planner application (`agent.py`).

The application is a single-page web app: a form collects trip parameters,
and on submission a strictly sequential pipeline invokes five LLM agents
(researcher, planner, budget expert, local expert, summarizer) and offers
the summarized plan as a text download.

We embed the program shallowly:
* the page's input widgets are listed as data (`page_widgets`);
* `TravelAgent` mirrors the Python class: its constructor arguments and the
  derived fact whether a tool-using agent is built (`runMode`);
* the prompt-template functions (`research_query`, `itinerary_query`,
  `budget_query`, `local_query`, `summary_prompt`, `full_prompt`) are
  transcribed string for string from the source;
* the body of `main`'s submit handler becomes `pipeline` / `main_submit`,
  a function from an abstract response environment (`Env`, where an
  `Except.error` models a raised exception) to the list of UI events the
  run produces, paired with the outcome.
-/

namespace TravelApp

/-- A calendar date, as Python's `datetime.date`: compared lexicographically
and rendered in ISO `YYYY-MM-DD` form by `str()`. -/
structure Date where
  year : Nat
  month : Nat
  day : Nat
deriving DecidableEq, Repr

/-- Python `date` comparison `a <= b` (lexicographic on year, month, day). -/
def Date.leB (a b : Date) : Bool :=
  if a.year ≠ b.year then decide (a.year < b.year)
  else if a.month ≠ b.month then decide (a.month < b.month)
  else decide (a.day ≤ b.day)

/-- Zero-pad a number to two digits, as in `date.isoformat`. -/
def pad2 (n : Nat) : String :=
  if n < 10 then "0" ++ toString n else toString n

/-- Zero-pad a year to four digits, as in `date.isoformat`. -/
def pad4 (n : Nat) : String :=
  if n < 10 then "000" ++ toString n
  else if n < 100 then "00" ++ toString n
  else if n < 1000 then "0" ++ toString n
  else toString n

/-- `str(d)` for a Python date: ISO `YYYY-MM-DD`. -/
def Date.iso (d : Date) : String :=
  pad4 d.year ++ "-" ++ pad2 d.month ++ "-" ++ pad2 d.day

/-- The widgets `main` renders: text inputs, date inputs, and the submit
button. -/
inductive Widget
  | textInput : String → Widget
  | dateInput : String → Widget
  | button : String → Widget
deriving DecidableEq, Repr

/-- Whether a widget is an input field of the form. -/
def Widget.isInput : Widget → Bool
  | .textInput _ => true
  | .dateInput _ => true
  | .button _ => false

/-- Whether a widget is a submit action. -/
def Widget.isSubmit : Widget → Bool
  | .button _ => true
  | _ => false

/-- The form widgets of `main`, in source order: column 1 holds the
departure city, start date and budget; column 2 the destination city, end
date and interests; then the generate button. -/
def page_widgets : List Widget :=
  [ Widget.textInput "🛫 Departure City",
    Widget.dateInput "📅 Start Date",
    Widget.textInput "💰 Total Budget",
    Widget.textInput "🛬 Destination City",
    Widget.dateInput "📅 End Date",
    Widget.textInput "🎯 Interests",
    Widget.button "🚀 Generate Travel Plan" ]

/-- The values read from the form when the user submits. -/
structure FormInput where
  origin : String
  destination : String
  start_date : Date
  end_date : Date
  budget : String
  interests : String
deriving DecidableEq, Repr

/-- The five agents created by `initialize_agents`, by their dictionary
keys. -/
inductive AgentKey
  | researcher
  | planner
  | budget_expert
  | local_expert
  | summarizer
deriving DecidableEq, Repr

/-- How a `TravelAgent.run` call executes: through the tool-augmented
LangChain agent, or as a direct tool-less LLM invocation. -/
inductive CallMode
  | toolAgent
  | directLLM
deriving DecidableEq, Repr

/-- The `TravelAgent` class: constructor arguments.  The LLM handle is
abstracted away; tools are kept as an opaque list of tool names. -/
structure TravelAgent where
  name : String
  role : String
  goal : String
  backstory : String
  tools : List String
  use_agent : Bool := true
deriving DecidableEq, Repr

/-- Whether `__init__` builds a LangChain agent: `use_agent and tools`
(a Python empty list is falsy), which is also the condition
`self.use_agent and self.agent` checked again in `run`. -/
def TravelAgent.agentBuilt (a : TravelAgent) : Bool :=
  a.use_agent && !a.tools.isEmpty

/-- The execution mode `run` takes, per the branch
`if self.use_agent and self.agent`. -/
def TravelAgent.runMode (a : TravelAgent) : CallMode :=
  if a.agentBuilt then CallMode.toolAgent else CallMode.directLLM

/-- The `full_prompt` string composed inside `TravelAgent.run`, with the
fresh session id and timestamp as parameters. -/
def full_prompt (a : TravelAgent) (session_id timestamp prompt : String) : String :=
  "Session ID: " ++ session_id ++ " | Time: " ++ timestamp ++ "\n" ++
  "Role: " ++ a.role ++ "\n" ++
  "Goal: " ++ a.goal ++ "\n" ++
  "Background: " ++ a.backstory ++ "\n\n" ++
  "IMPORTANT INSTRUCTION: This is a NEW query. Use the available search tools to find CURRENT, FRESH information. " ++
  "DO NOT use any cached or previous responses. Each query should trigger NEW searches. " ++
  "IMPORTANT INSTRUCTION: Give output in plain text and not markdown. Do not use special characters too much. " ++
  "NEVER ask the user for more information. If any information is missing, use search tools or make reasonable assumptions. " ++
  "ALWAYS provide a complete answer based on your FRESH search results and current knowledge.\n\n" ++
  "CURRENT USER QUERY (PROCESS THIS FRESH): " ++ prompt

/-- `TravelAgent.run`: composes `full_prompt` and sends it either through
the tool-augmented agent or directly to the LLM, depending on `runMode`;
the model's answer is the returned string.  The model/executor is
abstracted as `oracle`. -/
def TravelAgent.run (a : TravelAgent) (oracle : CallMode → String → String)
    (session_id timestamp prompt : String) : String :=
  oracle a.runMode (full_prompt a session_id timestamp prompt)

/-- `initialize_agents`, given the tool list that
`initialize_composio_tools` returned (possibly empty): the five
`TravelAgent` values with their roles, goals and backstories from the
source. -/
def initialize_agents (tools : List String) : AgentKey → TravelAgent
  | .researcher =>
    { name := "Researcher"
      role := "Travel Research Specialist"
      goal := "Provide current info: flights, hotels, attractions, visa, weather using web search"
      backstory :=
        "You are an expert travel researcher with access to real-time web search. " ++
        "You use search tools to find current flight prices, hotel availability, " ++
        "visa requirements, weather conditions, and travel advisories."
      tools := tools }
  | .planner =>
    { name := "Planner"
      role := "Itinerary Planning Expert"
      goal := "Create detailed, optimized travel itineraries using current information"
      backstory :=
        "You are a master itinerary planner who uses web search to find current " ++
        "opening hours, seasonal events, local festivals, and up-to-date attraction information " ++
        "to create the most relevant travel plans."
      tools := tools }
  | .budget_expert =>
    { name := "Budget Expert"
      role := "Budget Optimization Specialist"
      goal := "Find current deals, prices, and budget-friendly options using web search"
      backstory :=
        "You are a financial planner specializing in travel budgeting. You use search tools " ++
        "to find current deals, discount codes, price comparisons, and budget-friendly alternatives."
      tools := tools }
  | .local_expert =>
    { name := "Local Expert"
      role := "Local Culture and Experience Guide"
      goal := "Provide current local insights, events, and recommendations using web search"
      backstory :=
        "You are a cultural expert who uses web search to find current local events, " ++
        "seasonal activities, recent reviews, and trending local experiences."
      tools := tools }
  | .summarizer =>
    { name := "Summarizer"
      role := "Travel Plan Summarization Specialist"
      goal := "Summarize detailed travel information into a concise and clear travel plan"
      backstory :=
        "You are an expert summarizer that combines multiple travel planning outputs " ++
        "into a user-friendly summary."
      tools := []
      use_agent := false }

/-- The research query of step 1, exactly as formatted in `main`. -/
def research_query (origin destination sd ed : String) : String :=
  "IMPORTANT: This is a FRESH query for a trip from " ++ origin ++ " to " ++ destination ++ ". " ++
  "You MUST perform NEW searches now. Do not use any previous information. " ++
  "Search step 1: Search for \x27flights " ++ origin ++ " to " ++ destination ++ " " ++ sd ++ " " ++ ed ++ " 2025 current prices\x27 " ++
  "Search step 2: Search for \x27visa requirements " ++ destination ++ " from " ++ origin ++ " 2025 current\x27 " ++
  "Search step 3: Search for \x27weather " ++ destination ++ " " ++ sd ++ " 2025 forecast\x27 " ++
  "Provide the FRESH search results with specific prices, airlines, and current information."

/-- The itinerary query of step 2, exactly as formatted in `main`. -/
def itinerary_query (destination sd ed interests : String) : String :=
  "FRESH QUERY: Create itinerary for " ++ destination ++ " from " ++ sd ++ " to " ++ ed ++ ". " ++
  "You MUST search for NEW information now: " ++
  "Search for: \x27things to do " ++ destination ++ " " ++ interests ++ " " ++ sd ++ " 2025 current events\x27 " ++
  "Search for: \x27attractions " ++ destination ++ " opening hours 2025 current\x27 " ++
  "Create a day-by-day itinerary based on your FRESH search results."

/-- The budget query of step 3, exactly as formatted in `main`. -/
def budget_query (destination sd ed interests budget : String) : String :=
  "FRESH BUDGET SEARCH for " ++ destination ++ ": " ++
  "Consider the number of days from " ++ sd ++ " to " ++ ed ++ ".  " ++
  "Search for: \x27hotel prices " ++ destination ++ " " ++ sd ++ " 2025 current deals\x27 " ++
  "Search for: \x27restaurant costs " ++ destination ++ " 2025 budget dining\x27 " ++
  "Search for: \x27activity prices " ++ destination ++ " " ++ interests ++ " 2025 discounts\x27 " ++
  "Budget is " ++ budget ++ ". Provide FRESH pricing information from your searches."

/-- The local-insights query of step 4, exactly as formatted in `main`. -/
def local_query (destination sd ed interests : String) : String :=
  "FRESH LOCAL SEARCH for " ++ destination ++ ": " ++
  "Search for: \x27local events " ++ destination ++ " " ++ sd ++ " to " ++ ed ++ " 2025\x27 " ++
  "Search for: \x27cultural activities " ++ destination ++ " " ++ interests ++ " 2025 current\x27 " ++
  "Search for: \x27local tips " ++ destination ++ " 2025 etiquette customs\x27 " ++
  "Provide FRESH local information from your searches."

/-- The summarization prompt of step 5, exactly as formatted in `main`,
from the four intermediate outputs. -/
def summary_prompt (flights_info itinerary budget_plan local_tips : String) : String :=
  "Create a concise travel plan summary with these sections: " ++
  "Current Flight & Travel Info, Daily Itinerary, Budget & Deals, Local Events & Tips.\n\n" ++
  "Flight & Travel Info:\n" ++ flights_info ++ "...\n\n" ++
  "Itinerary:\n" ++ itinerary ++ "...\n\n" ++
  "Budget & Deals:\n" ++ budget_plan ++ "...\n\n" ++
  "Local Events & Tips:\n" ++ local_tips ++ "...\n\n" ++
  "Make it actionable and current for the traveler."

/-- `destination.replace(' ', '_')`: every space becomes an underscore. -/
def replace_spaces (s : String) : String :=
  s.map (fun c => if c = ' ' then '_' else c)

/-- The download file name built in `main`. -/
def download_file_name (f : FormInput) : String :=
  "travel_plan_" ++ replace_spaces f.destination ++ "_" ++ f.start_date.iso ++ ".txt"

/-- Observable UI events of one submit-handler run. -/
inductive Event
  | agentCall (key : AgentKey) (mode : CallMode) (query : String)
  | displayResult (sectionTitle : String) (text : String)
  | displayFinalPlan (text : String)
  | download (fileName : String) (mime : String) (content : String)
  | showError (msg : String)
  | showInfo (msg : String)
deriving DecidableEq, Repr

/-- The response environment: what `agents[key].run(query)` returns, with a
raised exception modelled as `Except.error` carrying `str(e)`. -/
structure Env where
  respond : AgentKey → String → Except String String

/-- The two UI actions of the `except` clause of `main`. -/
def errorEvents (e : String) : List Event :=
  [ Event.showError ("❌ Error generating travel plan: " ++ e),
    Event.showInfo "💡 Please check that all API keys are correctly configured in your Streamlit secrets." ]

/-- The `try` block of `main`: the five steps in source order.  Each step
emits its `agentCall` event (with the mode the agent actually executes in)
and, on success, displays the result; the first exception jumps to
`errorEvents` and nothing further runs.  A successful run displays the
final plan and offers the download.  Returns the event trace and the
outcome. -/
def pipeline (agents : AgentKey → TravelAgent) (env : Env) (f : FormInput) :
    List Event × Except String String :=
  let sd := f.start_date.iso
  let ed := f.end_date.iso
  let rq := research_query f.origin f.destination sd ed
  match env.respond .researcher rq with
  | .error e =>
    ([Event.agentCall .researcher (agents .researcher).runMode rq] ++ errorEvents e, .error e)
  | .ok flights_info =>
  let ev1 := [Event.agentCall .researcher (agents .researcher).runMode rq,
              Event.displayResult "🔍 Research Results" flights_info]
  let iq := itinerary_query f.destination sd ed f.interests
  match env.respond .planner iq with
  | .error e =>
    (ev1 ++ [Event.agentCall .planner (agents .planner).runMode iq] ++ errorEvents e, .error e)
  | .ok itinerary =>
  let ev2 := ev1 ++ [Event.agentCall .planner (agents .planner).runMode iq,
                     Event.displayResult "📋 Detailed Itinerary" itinerary]
  let bq := budget_query f.destination sd ed f.interests f.budget
  match env.respond .budget_expert bq with
  | .error e =>
    (ev2 ++ [Event.agentCall .budget_expert (agents .budget_expert).runMode bq] ++ errorEvents e, .error e)
  | .ok budget_plan =>
  let ev3 := ev2 ++ [Event.agentCall .budget_expert (agents .budget_expert).runMode bq,
                     Event.displayResult "💰 Budget Analysis" budget_plan]
  let lq := local_query f.destination sd ed f.interests
  match env.respond .local_expert lq with
  | .error e =>
    (ev3 ++ [Event.agentCall .local_expert (agents .local_expert).runMode lq] ++ errorEvents e, .error e)
  | .ok local_tips =>
  let ev4 := ev3 ++ [Event.agentCall .local_expert (agents .local_expert).runMode lq,
                     Event.displayResult "🌟 Local Insights" local_tips]
  let sq := summary_prompt flights_info itinerary budget_plan local_tips
  match env.respond .summarizer sq with
  | .error e =>
    (ev4 ++ [Event.agentCall .summarizer (agents .summarizer).runMode sq] ++ errorEvents e, .error e)
  | .ok summarized_plan =>
    (ev4 ++ [Event.agentCall .summarizer (agents .summarizer).runMode sq,
             Event.displayFinalPlan summarized_plan,
             Event.download (download_file_name f) "text/plain" summarized_plan],
     .ok summarized_plan)

/-- The submit path of `main`: the date validation (`start_date >=
end_date`, checked before the button), the all-fields check inside the
button handler (the two date widgets always hold a date, so only the four
text fields can be empty), then the pipeline. -/
def main_submit (tools : List String) (env : Env) (f : FormInput) : List Event :=
  if Date.leB f.end_date f.start_date then
    [Event.showError "❌ End date must be after start date!"]
  else if f.origin = "" ∨ f.destination = "" ∨ f.budget = "" ∨ f.interests = "" then
    [Event.showError "❌ Please fill in all fields!"]
  else
    (pipeline (initialize_agents tools) env f).1

/-- The agent invocations of a trace, in order. -/
def agentCallsOf (tr : List Event) : List AgentKey :=
  tr.filterMap fun e =>
    match e with
    | .agentCall k _ _ => some k
    | _ => none

/-- The fixed pipeline order. -/
def fiveKeys : List AgentKey :=
  [.researcher, .planner, .budget_expert, .local_expert, .summarizer]

/-- `needle` occurs verbatim as a substring of `hay`. -/
def strContains (needle hay : String) : Prop :=
  ∃ a b, hay = a ++ needle ++ b

/-- `w`, `x`, `y`, `z` occur verbatim in `hay`, in that order. -/
def containsInOrder4 (w x y z hay : String) : Prop :=
  ∃ a b c d e, hay = a ++ w ++ b ++ x ++ c ++ y ++ d ++ z ++ e

/-- No final plan is displayed and no download is offered anywhere in the
trace. -/
def noPlanOrDownload (tr : List Event) : Bool :=
  tr.all fun ev =>
    match ev with
    | .download _ _ _ => false
    | .displayFinalPlan _ => false
    | _ => true

/-- A sample environment in which every agent answers successfully. -/
def okEnv : Env :=
  { respond := fun _ _ => Except.ok "RESPONSE" }

/-- A sample environment in which the very first agent call raises. -/
def failEnv : Env :=
  { respond := fun _ _ => Except.error "boom" }

/-- A sample valid form submission. -/
def sampleForm : FormInput :=
  { origin := "New York, NY"
    destination := "Paris, France"
    start_date := ⟨2025, 6, 1⟩
    end_date := ⟨2025, 6, 8⟩
    budget := "$2000 USD"
    interests := "museums, food" }

/-- The research query of a given submission. -/
def rqOf (f : FormInput) : String :=
  research_query f.origin f.destination f.start_date.iso f.end_date.iso

/-- The itinerary query of a given submission. -/
def iqOf (f : FormInput) : String :=
  itinerary_query f.destination f.start_date.iso f.end_date.iso f.interests

/-- The budget query of a given submission. -/
def bqOf (f : FormInput) : String :=
  budget_query f.destination f.start_date.iso f.end_date.iso f.interests f.budget

/-- The local-insights query of a given submission. -/
def lqOf (f : FormInput) : String :=
  local_query f.destination f.start_date.iso f.end_date.iso f.interests

/-- The call event of agent `k` on query `q`, with the mode it executes
in. -/
def callEv (agents : AgentKey → TravelAgent) (k : AgentKey) (q : String) : Event :=
  Event.agentCall k (agents k).runMode q

/-- The event trace of a fully successful run. -/
def successTrace (agents : AgentKey → TravelAgent) (f : FormInput)
    (fi it bp lt plan : String) : List Event :=
  [callEv agents .researcher (rqOf f),
   Event.displayResult "🔍 Research Results" fi,
   callEv agents .planner (iqOf f),
   Event.displayResult "📋 Detailed Itinerary" it,
   callEv agents .budget_expert (bqOf f),
   Event.displayResult "💰 Budget Analysis" bp,
   callEv agents .local_expert (lqOf f),
   Event.displayResult "🌟 Local Insights" lt,
   callEv agents .summarizer (summary_prompt fi it bp lt),
   Event.displayFinalPlan plan,
   Event.download (download_file_name f) "text/plain" plan]

theorem strContains_head (n b : String) : strContains n (n ++ b) :=
  ⟨"", b, by simp⟩

theorem strContains_cons (c : String) {n h : String} :
    strContains n h → strContains n (c ++ h)
  | ⟨a, b, hh⟩ => ⟨c ++ a, b, by subst hh; simp [String.append_assoc]⟩

/-- C2 counterexample: the form does not have exactly five input fields —
`main` renders six of them (departure city, start date, budget, destination
city, end date, interests). -/
theorem C2_counterexample :
    ¬ (page_widgets.countP Widget.isInput = 5) := by decide

/-- C2 (amended): the web form consists of exactly six input fields and one
submit action. -/
theorem C2_form_six_inputs_one_submit :
    page_widgets.countP Widget.isInput = 6 ∧
    page_widgets.countP Widget.isSubmit = 1 := by decide

/-- C6: every submitted trip parameter reaches the pipeline's prompts — the
research query contains the origin, destination, start date and end date;
the itinerary query the destination, dates and interests; the budget query
the budget, destination and dates; the local-insights query the
destination, dates and interests, each verbatim as a substring. -/
theorem C6_params_reach_prompts (f : FormInput) :
    (strContains f.origin
      (research_query f.origin f.destination f.start_date.iso f.end_date.iso) ∧
     strContains f.destination
      (research_query f.origin f.destination f.start_date.iso f.end_date.iso) ∧
     strContains f.start_date.iso
      (research_query f.origin f.destination f.start_date.iso f.end_date.iso) ∧
     strContains f.end_date.iso
      (research_query f.origin f.destination f.start_date.iso f.end_date.iso)) ∧
    (strContains f.destination
      (itinerary_query f.destination f.start_date.iso f.end_date.iso f.interests) ∧
     strContains f.start_date.iso
      (itinerary_query f.destination f.start_date.iso f.end_date.iso f.interests) ∧
     strContains f.end_date.iso
      (itinerary_query f.destination f.start_date.iso f.end_date.iso f.interests) ∧
     strContains f.interests
      (itinerary_query f.destination f.start_date.iso f.end_date.iso f.interests)) ∧
    (strContains f.budget
      (budget_query f.destination f.start_date.iso f.end_date.iso f.interests f.budget) ∧
     strContains f.destination
      (budget_query f.destination f.start_date.iso f.end_date.iso f.interests f.budget) ∧
     strContains f.start_date.iso
      (budget_query f.destination f.start_date.iso f.end_date.iso f.interests f.budget) ∧
     strContains f.end_date.iso
      (budget_query f.destination f.start_date.iso f.end_date.iso f.interests f.budget)) ∧
    (strContains f.destination
      (local_query f.destination f.start_date.iso f.end_date.iso f.interests) ∧
     strContains f.start_date.iso
      (local_query f.destination f.start_date.iso f.end_date.iso f.interests) ∧
     strContains f.end_date.iso
      (local_query f.destination f.start_date.iso f.end_date.iso f.interests) ∧
     strContains f.interests
      (local_query f.destination f.start_date.iso f.end_date.iso f.interests)) := by
  refine ⟨⟨?_, ?_, ?_, ?_⟩, ⟨?_, ?_, ?_, ?_⟩, ⟨?_, ?_, ?_, ?_⟩, ⟨?_, ?_, ?_, ?_⟩⟩ <;>
    (simp only [research_query, itinerary_query, budget_query, local_query,
      String.append_assoc]
     repeat (first | exact strContains_head _ _ | apply strContains_cons))

/-- C9: for every `TravelAgent` and input prompt, the full prompt sent to
the model contains the agent's role, goal, backstory and the original
prompt, verbatim and in that order. -/
theorem C9_full_prompt_order (a : TravelAgent) (session_id timestamp prompt : String) :
    containsInOrder4 a.role a.goal a.backstory prompt
      (full_prompt a session_id timestamp prompt) :=
  ⟨"Session ID: " ++ session_id ++ " | Time: " ++ timestamp ++ "\n" ++ "Role: ",
   "\n" ++ "Goal: ",
   "\n" ++ "Background: ",
   "\n\n" ++
   "IMPORTANT INSTRUCTION: This is a NEW query. Use the available search tools to find CURRENT, FRESH information. " ++
   "DO NOT use any cached or previous responses. Each query should trigger NEW searches. " ++
   "IMPORTANT INSTRUCTION: Give output in plain text and not markdown. Do not use special characters too much. " ++
   "NEVER ask the user for more information. If any information is missing, use search tools or make reasonable assumptions. " ++
   "ALWAYS provide a complete answer based on your FRESH search results and current knowledge.\n\n" ++
   "CURRENT USER QUERY (PROCESS THIS FRESH): ",
   "",
   by simp [full_prompt, String.append_assoc]⟩

/-- C10: a `TravelAgent` with an empty tool list never builds a tool-using
agent, whatever its `use_agent` flag: `run` falls back to the direct,
tool-less LLM invocation and returns that response; in particular every
agent built by `initialize_agents` on an empty Composio tool list runs as a
plain LLM call. -/
theorem C10_empty_tools_direct_llm (a : TravelAgent) (h : a.tools = [])
    (oracle : CallMode → String → String) (sid ts prompt : String) (k : AgentKey) :
    a.agentBuilt = false ∧
    a.run oracle sid ts prompt = oracle CallMode.directLLM (full_prompt a sid ts prompt) ∧
    (initialize_agents [] k).tools = [] ∧
    (initialize_agents [] k).run oracle sid ts prompt
      = oracle CallMode.directLLM (full_prompt (initialize_agents [] k) sid ts prompt) := by
  have hb : a.agentBuilt = false := by
    simp [TravelAgent.agentBuilt, h]
  have hk : (initialize_agents [] k).tools = [] := by
    cases k <;> rfl
  have hkb : (initialize_agents [] k).agentBuilt = false := by
    cases k <;> simp [initialize_agents, TravelAgent.agentBuilt]
  refine ⟨hb, ?_, hk, ?_⟩
  · simp [TravelAgent.run, TravelAgent.runMode, hb]
  · simp [TravelAgent.run, TravelAgent.runMode, hkb]

/-- C10 witness: the researcher built on an empty tool list degrades to a
direct LLM call. -/
theorem C10_empty_tools_direct_llm_witness :
    (initialize_agents [] AgentKey.researcher).tools = [] ∧
    ((initialize_agents [] AgentKey.researcher).agentBuilt = false ∧
     (initialize_agents [] AgentKey.researcher).run (fun _ _ => "r") "s" "t" "q"
       = (fun _ _ => "r") CallMode.directLLM
           (full_prompt (initialize_agents [] AgentKey.researcher) "s" "t" "q") ∧
     (initialize_agents [] AgentKey.planner).tools = [] ∧
     (initialize_agents [] AgentKey.planner).run (fun _ _ => "r") "s" "t" "q"
       = (fun _ _ => "r") CallMode.directLLM
           (full_prompt (initialize_agents [] AgentKey.planner) "s" "t" "q")) :=
  ⟨rfl, C10_empty_tools_direct_llm (initialize_agents [] AgentKey.researcher) rfl
    (fun _ _ => "r") "s" "t" "q" AgentKey.planner⟩

/-- C4 counterexample: when Composio tool initialization yields no tools,
the researcher does not execute through a tool-augmented agent. -/
theorem C4_counterexample :
    ¬ ((initialize_agents [] AgentKey.researcher).runMode = CallMode.toolAgent) := by
  decide

/-- C4 (amended): each of the four report agents is constructed with the
tool set returned by the Composio initialization, and whenever that tool
set is nonempty, every invocation executes through the tool-augmented
agent. -/
theorem C4_report_agents_tool_augmented (tools : List String) (h : tools ≠ [])
    (k : AgentKey) (hk : k ≠ AgentKey.summarizer)
    (oracle : CallMode → String → String) (sid ts q : String) :
    (initialize_agents tools k).tools = tools ∧
    (initialize_agents tools k).runMode = CallMode.toolAgent ∧
    (initialize_agents tools k).run oracle sid ts q
      = oracle CallMode.toolAgent (full_prompt (initialize_agents tools k) sid ts q) := by
  have hne : tools.isEmpty = false := by
    cases tools with
    | nil => exact absurd rfl h
    | cons a l => rfl
  have hm : (initialize_agents tools k).runMode = CallMode.toolAgent := by
    cases k <;>
      simp [initialize_agents, TravelAgent.runMode, TravelAgent.agentBuilt, hne] at hk ⊢
  exact ⟨by cases k <;> first | rfl | exact absurd rfl hk, hm,
    by simp [TravelAgent.run, hm]⟩

/-- C4 witness: with a nonempty tool list, the researcher is constructed
with it and runs through the tool-augmented agent. -/
theorem C4_report_agents_tool_augmented_witness :
    (["TAVILY"] ≠ ([] : List String)) ∧
    (AgentKey.researcher ≠ AgentKey.summarizer) ∧
    ((initialize_agents ["TAVILY"] AgentKey.researcher).tools = ["TAVILY"] ∧
     (initialize_agents ["TAVILY"] AgentKey.researcher).runMode = CallMode.toolAgent ∧
     (initialize_agents ["TAVILY"] AgentKey.researcher).run (fun _ _ => "r") "s" "t" "q"
       = (fun _ _ => "r") CallMode.toolAgent
           (full_prompt (initialize_agents ["TAVILY"] AgentKey.researcher) "s" "t" "q")) :=
  ⟨by decide, by decide,
   C4_report_agents_tool_augmented ["TAVILY"] (by decide) AgentKey.researcher (by decide)
     (fun _ _ => "r") "s" "t" "q"⟩

/-- C8: a submission that fails validation — start date on or after end
date, or an empty form value — produces only an error message and invokes
no agent. -/
theorem C8_validation_blocks_agents (tools : List String) (env : Env) (f : FormInput)
    (h : Date.leB f.end_date f.start_date = true ∨
      f.origin = "" ∨ f.destination = "" ∨ f.budget = "" ∨ f.interests = "") :
    agentCallsOf (main_submit tools env f) = [] ∧
    ∃ m, main_submit tools env f = [Event.showError m] := by
  by_cases hd : Date.leB f.end_date f.start_date = true
  · refine ⟨?_, "❌ End date must be after start date!", ?_⟩ <;>
      simp [main_submit, hd, agentCallsOf]
  · have hor : f.origin = "" ∨ f.destination = "" ∨ f.budget = "" ∨ f.interests = "" := by
      tauto
    refine ⟨?_, "❌ Please fill in all fields!", ?_⟩ <;>
      simp [main_submit, hd, hor, agentCallsOf]

/-- Case analysis of one pipeline run: either the run fails at one of the
five steps — the trace is the calls and displays so far, the failing call,
and the error events — or all five steps succeed. -/
theorem pipeline_shape (agents : AgentKey → TravelAgent) (env : Env) (f : FormInput) :
    (∃ e, env.respond .researcher (rqOf f) = .error e ∧
      pipeline agents env f =
        ([callEv agents .researcher (rqOf f)] ++ errorEvents e, .error e)) ∨
    (∃ fi e, env.respond .researcher (rqOf f) = .ok fi ∧
      env.respond .planner (iqOf f) = .error e ∧
      pipeline agents env f =
        ([callEv agents .researcher (rqOf f),
          Event.displayResult "🔍 Research Results" fi,
          callEv agents .planner (iqOf f)] ++ errorEvents e, .error e)) ∨
    (∃ fi it e, env.respond .researcher (rqOf f) = .ok fi ∧
      env.respond .planner (iqOf f) = .ok it ∧
      env.respond .budget_expert (bqOf f) = .error e ∧
      pipeline agents env f =
        ([callEv agents .researcher (rqOf f),
          Event.displayResult "🔍 Research Results" fi,
          callEv agents .planner (iqOf f),
          Event.displayResult "📋 Detailed Itinerary" it,
          callEv agents .budget_expert (bqOf f)] ++ errorEvents e, .error e)) ∨
    (∃ fi it bp e, env.respond .researcher (rqOf f) = .ok fi ∧
      env.respond .planner (iqOf f) = .ok it ∧
      env.respond .budget_expert (bqOf f) = .ok bp ∧
      env.respond .local_expert (lqOf f) = .error e ∧
      pipeline agents env f =
        ([callEv agents .researcher (rqOf f),
          Event.displayResult "🔍 Research Results" fi,
          callEv agents .planner (iqOf f),
          Event.displayResult "📋 Detailed Itinerary" it,
          callEv agents .budget_expert (bqOf f),
          Event.displayResult "💰 Budget Analysis" bp,
          callEv agents .local_expert (lqOf f)] ++ errorEvents e, .error e)) ∨
    (∃ fi it bp lt e, env.respond .researcher (rqOf f) = .ok fi ∧
      env.respond .planner (iqOf f) = .ok it ∧
      env.respond .budget_expert (bqOf f) = .ok bp ∧
      env.respond .local_expert (lqOf f) = .ok lt ∧
      env.respond .summarizer (summary_prompt fi it bp lt) = .error e ∧
      pipeline agents env f =
        ([callEv agents .researcher (rqOf f),
          Event.displayResult "🔍 Research Results" fi,
          callEv agents .planner (iqOf f),
          Event.displayResult "📋 Detailed Itinerary" it,
          callEv agents .budget_expert (bqOf f),
          Event.displayResult "💰 Budget Analysis" bp,
          callEv agents .local_expert (lqOf f),
          Event.displayResult "🌟 Local Insights" lt,
          callEv agents .summarizer (summary_prompt fi it bp lt)] ++ errorEvents e,
         .error e)) ∨
    (∃ fi it bp lt plan, env.respond .researcher (rqOf f) = .ok fi ∧
      env.respond .planner (iqOf f) = .ok it ∧
      env.respond .budget_expert (bqOf f) = .ok bp ∧
      env.respond .local_expert (lqOf f) = .ok lt ∧
      env.respond .summarizer (summary_prompt fi it bp lt) = .ok plan ∧
      pipeline agents env f = (successTrace agents f fi it bp lt plan, .ok plan)) := by
  rcases hr : env.respond .researcher
      (research_query f.origin f.destination f.start_date.iso f.end_date.iso) with e | fi
  · exact Or.inl ⟨e, hr, by
      simp [pipeline, rqOf, iqOf, bqOf, lqOf, callEv, errorEvents, hr]⟩
  rcases hi : env.respond .planner
      (itinerary_query f.destination f.start_date.iso f.end_date.iso f.interests) with e | it
  · exact Or.inr (Or.inl ⟨fi, e, hr, hi, by
      simp [pipeline, rqOf, iqOf, bqOf, lqOf, callEv, errorEvents, hr, hi]⟩)
  rcases hb : env.respond .budget_expert
      (budget_query f.destination f.start_date.iso f.end_date.iso f.interests f.budget) with e | bp
  · exact Or.inr (Or.inr (Or.inl ⟨fi, it, e, hr, hi, hb, by
      simp [pipeline, rqOf, iqOf, bqOf, lqOf, callEv, errorEvents, hr, hi, hb]⟩))
  rcases hl : env.respond .local_expert
      (local_query f.destination f.start_date.iso f.end_date.iso f.interests) with e | lt
  · exact Or.inr (Or.inr (Or.inr (Or.inl ⟨fi, it, bp, e, hr, hi, hb, hl, by
      simp [pipeline, rqOf, iqOf, bqOf, lqOf, callEv, errorEvents, hr, hi, hb, hl]⟩)))
  rcases hs : env.respond .summarizer (summary_prompt fi it bp lt) with e | plan
  · exact Or.inr (Or.inr (Or.inr (Or.inr (Or.inl ⟨fi, it, bp, lt, e, hr, hi, hb, hl, hs, by
      simp [pipeline, rqOf, iqOf, bqOf, lqOf, callEv, errorEvents, hr, hi, hb, hl, hs]⟩))))
  · exact Or.inr (Or.inr (Or.inr (Or.inr (Or.inr ⟨fi, it, bp, lt, plan, hr, hi, hb, hl, hs, by
      simp [pipeline, successTrace, rqOf, iqOf, bqOf, lqOf, callEv, hr, hi, hb, hl, hs]⟩))))

/-- The four intermediate outputs occur verbatim in the summary prompt
built from them. -/
theorem summary_prompt_contains (fi it bp lt : String) :
    strContains fi (summary_prompt fi it bp lt) ∧
    strContains it (summary_prompt fi it bp lt) ∧
    strContains bp (summary_prompt fi it bp lt) ∧
    strContains lt (summary_prompt fi it bp lt) := by
  refine ⟨?_, ?_, ?_, ?_⟩ <;>
    (simp only [summary_prompt, String.append_assoc]
     repeat (first | exact strContains_head _ _ | apply strContains_cons))

/-- C8 witness: an otherwise valid submission with an empty origin is
blocked before any agent call. -/
theorem C8_validation_blocks_agents_witness :
    (Date.leB ⟨2025, 6, 8⟩ ⟨2025, 6, 1⟩ = true ∨
      "" = "" ∨ "Paris, France" = "" ∨ "$2000 USD" = "" ∨ "museums, food" = "") ∧
    (agentCallsOf (main_submit [] okEnv
        { sampleForm with origin := "" }) = [] ∧
     ∃ m, main_submit [] okEnv { sampleForm with origin := "" } = [Event.showError m]) :=
  ⟨by decide,
   C8_validation_blocks_agents [] okEnv { sampleForm with origin := "" }
     (by decide)⟩

/-- C1: in a run of the plan-generation pipeline where every step returns,
the five model calls happen strictly sequentially — the trace lists calls
in execution order — and in the fixed order researcher, planner, budget
expert, local expert, summarizer; none is skipped or reordered. -/
theorem C1_sequential_fixed_order (agents : AgentKey → TravelAgent) (env : Env)
    (f : FormInput) (fi it bp lt plan : String)
    (h1 : env.respond .researcher (rqOf f) = .ok fi)
    (h2 : env.respond .planner (iqOf f) = .ok it)
    (h3 : env.respond .budget_expert (bqOf f) = .ok bp)
    (h4 : env.respond .local_expert (lqOf f) = .ok lt)
    (h5 : env.respond .summarizer (summary_prompt fi it bp lt) = .ok plan) :
    agentCallsOf (pipeline agents env f).1 = fiveKeys := by
  rcases pipeline_shape agents env f with
    ⟨e, he, hp⟩ | ⟨fi', e, hr, he, hp⟩ | ⟨fi', it', e, hr, hi, he, hp⟩ |
    ⟨fi', it', bp', e, hr, hi, hb, he, hp⟩ |
    ⟨fi', it', bp', lt', e, hr, hi, hb, hl, he, hp⟩ |
    ⟨fi', it', bp', lt', plan', hr, hi, hb, hl, hs, hp⟩
  · rw [h1] at he; cases he
  · rw [h2] at he; cases he
  · rw [h3] at he; cases he
  · rw [h4] at he; cases he
  · rw [h1] at hr; rw [h2] at hi; rw [h3] at hb; rw [h4] at hl
    have e1 := Except.ok.inj hr; have e2 := Except.ok.inj hi
    have e3 := Except.ok.inj hb; have e4 := Except.ok.inj hl
    subst e1; subst e2; subst e3; subst e4
    rw [h5] at he; cases he
  · rw [hp]; rfl

/-- C1 witness: a concrete all-successful run calls the five agents in the
fixed order. -/
theorem C1_sequential_fixed_order_witness :
    (okEnv.respond AgentKey.researcher (rqOf sampleForm) = Except.ok "RESPONSE") ∧
    (okEnv.respond AgentKey.planner (iqOf sampleForm) = Except.ok "RESPONSE") ∧
    (okEnv.respond AgentKey.budget_expert (bqOf sampleForm) = Except.ok "RESPONSE") ∧
    (okEnv.respond AgentKey.local_expert (lqOf sampleForm) = Except.ok "RESPONSE") ∧
    (okEnv.respond AgentKey.summarizer
      (summary_prompt "RESPONSE" "RESPONSE" "RESPONSE" "RESPONSE") = Except.ok "RESPONSE") ∧
    agentCallsOf (pipeline (initialize_agents ["TAVILY"]) okEnv sampleForm).1 = fiveKeys :=
  ⟨rfl, rfl, rfl, rfl, rfl,
   C1_sequential_fixed_order (initialize_agents ["TAVILY"]) okEnv sampleForm
     "RESPONSE" "RESPONSE" "RESPONSE" "RESPONSE" "RESPONSE" rfl rfl rfl rfl rfl⟩

/-- C3: a successful run makes exactly one summarization call, its prompt
contains the four intermediate outputs verbatim as substrings, and the
displayed final plan is the summarizer's returned text. -/
theorem C3_one_summary_call (agents : AgentKey → TravelAgent) (env : Env)
    (f : FormInput) (plan : String)
    (h : (pipeline agents env f).2 = Except.ok plan) :
    ∃ fi it bp lt,
      env.respond .researcher (rqOf f) = .ok fi ∧
      env.respond .planner (iqOf f) = .ok it ∧
      env.respond .budget_expert (bqOf f) = .ok bp ∧
      env.respond .local_expert (lqOf f) = .ok lt ∧
      env.respond .summarizer (summary_prompt fi it bp lt) = .ok plan ∧
      strContains fi (summary_prompt fi it bp lt) ∧
      strContains it (summary_prompt fi it bp lt) ∧
      strContains bp (summary_prompt fi it bp lt) ∧
      strContains lt (summary_prompt fi it bp lt) ∧
      (agentCallsOf (pipeline agents env f).1).count AgentKey.summarizer = 1 ∧
      Event.displayFinalPlan plan ∈ (pipeline agents env f).1 := by
  rcases pipeline_shape agents env f with
    ⟨e, he, hp⟩ | ⟨fi, e, hr, he, hp⟩ | ⟨fi, it, e, hr, hi, he, hp⟩ |
    ⟨fi, it, bp, e, hr, hi, hb, he, hp⟩ |
    ⟨fi, it, bp, lt, e, hr, hi, hb, hl, he, hp⟩ |
    ⟨fi, it, bp, lt, plan', hr, hi, hb, hl, hs, hp⟩
  · rw [hp] at h; simp at h
  · rw [hp] at h; simp at h
  · rw [hp] at h; simp at h
  · rw [hp] at h; simp at h
  · rw [hp] at h; simp at h
  · rw [hp] at h; simp at h; subst h
    obtain ⟨c1, c2, c3, c4⟩ := summary_prompt_contains fi it bp lt
    refine ⟨fi, it, bp, lt, hr, hi, hb, hl, hs, c1, c2, c3, c4, ?_, ?_⟩
    · rw [hp]; rfl
    · rw [hp]; simp [successTrace]

/-- C3 witness: a concrete all-successful run. -/
theorem C3_one_summary_call_witness :
    ((pipeline (initialize_agents ["TAVILY"]) okEnv sampleForm).2 = Except.ok "RESPONSE") ∧
    (∃ fi it bp lt,
      okEnv.respond .researcher (rqOf sampleForm) = .ok fi ∧
      okEnv.respond .planner (iqOf sampleForm) = .ok it ∧
      okEnv.respond .budget_expert (bqOf sampleForm) = .ok bp ∧
      okEnv.respond .local_expert (lqOf sampleForm) = .ok lt ∧
      okEnv.respond .summarizer (summary_prompt fi it bp lt) = .ok "RESPONSE" ∧
      strContains fi (summary_prompt fi it bp lt) ∧
      strContains it (summary_prompt fi it bp lt) ∧
      strContains bp (summary_prompt fi it bp lt) ∧
      strContains lt (summary_prompt fi it bp lt) ∧
      (agentCallsOf (pipeline (initialize_agents ["TAVILY"]) okEnv sampleForm).1).count
        AgentKey.summarizer = 1 ∧
      Event.displayFinalPlan "RESPONSE"
        ∈ (pipeline (initialize_agents ["TAVILY"]) okEnv sampleForm).1) :=
  ⟨rfl, C3_one_summary_call (initialize_agents ["TAVILY"]) okEnv sampleForm "RESPONSE" rfl⟩

/-- C5: if a step of the pipeline raises an exception, the run surfaces an
error message containing the exception text and then stops: the trace ends
with the error events, no final plan is displayed, no download is offered,
the calls made form an initial segment of the fixed five-step order, and no
agent is called twice. -/
theorem C5_exception_stops_run (agents : AgentKey → TravelAgent) (env : Env)
    (f : FormInput) (e : String)
    (h : (pipeline agents env f).2 = Except.error e) :
    (∃ tr', (pipeline agents env f).1 = tr' ++ errorEvents e) ∧
    strContains e ("❌ Error generating travel plan: " ++ e) ∧
    noPlanOrDownload (pipeline agents env f).1 = true ∧
    (∃ rest, agentCallsOf (pipeline agents env f).1 ++ rest = fiveKeys) ∧
    (agentCallsOf (pipeline agents env f).1).Nodup := by
  have hc : strContains e ("❌ Error generating travel plan: " ++ e) :=
    ⟨"❌ Error generating travel plan: ", "", by simp⟩
  rcases pipeline_shape agents env f with
    ⟨e', he, hp⟩ | ⟨fi, e', hr, he, hp⟩ | ⟨fi, it, e', hr, hi, he, hp⟩ |
    ⟨fi, it, bp, e', hr, hi, hb, he, hp⟩ |
    ⟨fi, it, bp, lt, e', hr, hi, hb, hl, he, hp⟩ |
    ⟨fi, it, bp, lt, plan', hr, hi, hb, hl, hs, hp⟩
  · rw [hp] at h; simp at h; subst h
    exact ⟨⟨[callEv agents .researcher (rqOf f)], by rw [hp]⟩, hc,
      by rw [hp]; rfl,
      ⟨[.planner, .budget_expert, .local_expert, .summarizer], by rw [hp]; rfl⟩,
      by rw [hp]; show ([AgentKey.researcher] : List AgentKey).Nodup; decide⟩
  · rw [hp] at h; simp at h; subst h
    exact ⟨⟨[callEv agents .researcher (rqOf f),
        Event.displayResult "🔍 Research Results" fi,
        callEv agents .planner (iqOf f)], by rw [hp]⟩, hc,
      by rw [hp]; rfl,
      ⟨[.budget_expert, .local_expert, .summarizer], by rw [hp]; rfl⟩,
      by rw [hp]; show ([AgentKey.researcher, .planner] : List AgentKey).Nodup; decide⟩
  · rw [hp] at h; simp at h; subst h
    exact ⟨⟨[callEv agents .researcher (rqOf f),
        Event.displayResult "🔍 Research Results" fi,
        callEv agents .planner (iqOf f),
        Event.displayResult "📋 Detailed Itinerary" it,
        callEv agents .budget_expert (bqOf f)], by rw [hp]⟩, hc,
      by rw [hp]; rfl,
      ⟨[.local_expert, .summarizer], by rw [hp]; rfl⟩,
      by rw [hp]; show ([AgentKey.researcher, .planner, .budget_expert] : List AgentKey).Nodup; decide⟩
  · rw [hp] at h; simp at h; subst h
    exact ⟨⟨[callEv agents .researcher (rqOf f),
        Event.displayResult "🔍 Research Results" fi,
        callEv agents .planner (iqOf f),
        Event.displayResult "📋 Detailed Itinerary" it,
        callEv agents .budget_expert (bqOf f),
        Event.displayResult "💰 Budget Analysis" bp,
        callEv agents .local_expert (lqOf f)], by rw [hp]⟩, hc,
      by rw [hp]; rfl,
      ⟨[.summarizer], by rw [hp]; rfl⟩,
      by rw [hp]; show ([AgentKey.researcher, .planner, .budget_expert, .local_expert] : List AgentKey).Nodup; decide⟩
  · rw [hp] at h; simp at h; subst h
    exact ⟨⟨[callEv agents .researcher (rqOf f),
        Event.displayResult "🔍 Research Results" fi,
        callEv agents .planner (iqOf f),
        Event.displayResult "📋 Detailed Itinerary" it,
        callEv agents .budget_expert (bqOf f),
        Event.displayResult "💰 Budget Analysis" bp,
        callEv agents .local_expert (lqOf f),
        Event.displayResult "🌟 Local Insights" lt,
        callEv agents .summarizer (summary_prompt fi it bp lt)], by rw [hp]⟩, hc,
      by rw [hp]; rfl,
      ⟨[], by rw [hp]; rfl⟩,
      by rw [hp]; show fiveKeys.Nodup; decide⟩
  · rw [hp] at h; simp at h

/-- C5 witness: a run whose first step raises. -/
theorem C5_exception_stops_run_witness :
    ((pipeline (initialize_agents []) failEnv sampleForm).2 = Except.error "boom") ∧
    ((∃ tr', (pipeline (initialize_agents []) failEnv sampleForm).1
        = tr' ++ errorEvents "boom") ∧
     strContains "boom" ("❌ Error generating travel plan: " ++ "boom") ∧
     noPlanOrDownload (pipeline (initialize_agents []) failEnv sampleForm).1 = true ∧
     (∃ rest, agentCallsOf (pipeline (initialize_agents []) failEnv sampleForm).1 ++ rest
        = fiveKeys) ∧
     (agentCallsOf (pipeline (initialize_agents []) failEnv sampleForm).1).Nodup) :=
  ⟨rfl, C5_exception_stops_run (initialize_agents []) failEnv sampleForm "boom" rfl⟩

/-- C7: a successful run offers exactly one download: a `text/plain` file
whose content is the summarizer's final plan and whose name is
`travel_plan_`, the destination with spaces replaced by underscores, an
underscore, the start date, and `.txt`. -/
theorem C7_download_plain_text (agents : AgentKey → TravelAgent) (env : Env)
    (f : FormInput) (plan : String)
    (h : (pipeline agents env f).2 = Except.ok plan) :
    Event.download
        ("travel_plan_" ++ replace_spaces f.destination ++ "_" ++ f.start_date.iso ++ ".txt")
        "text/plain" plan ∈ (pipeline agents env f).1 ∧
    (∀ n m c, Event.download n m c ∈ (pipeline agents env f).1 →
      n = "travel_plan_" ++ replace_spaces f.destination ++ "_" ++ f.start_date.iso ++ ".txt" ∧
      m = "text/plain" ∧ c = plan) := by
  rcases pipeline_shape agents env f with
    ⟨e, he, hp⟩ | ⟨fi, e, hr, he, hp⟩ | ⟨fi, it, e, hr, hi, he, hp⟩ |
    ⟨fi, it, bp, e, hr, hi, hb, he, hp⟩ |
    ⟨fi, it, bp, lt, e, hr, hi, hb, hl, he, hp⟩ |
    ⟨fi, it, bp, lt, plan', hr, hi, hb, hl, hs, hp⟩
  · rw [hp] at h; simp at h
  · rw [hp] at h; simp at h
  · rw [hp] at h; simp at h
  · rw [hp] at h; simp at h
  · rw [hp] at h; simp at h
  · rw [hp] at h; simp at h; subst h
    constructor
    · rw [hp]; simp [successTrace, download_file_name]
    · intro n m c hmem
      rw [hp] at hmem
      simp [successTrace, callEv, download_file_name] at hmem
      exact hmem

/-- C7 witness: a concrete all-successful run and its download file. -/
theorem C7_download_plain_text_witness :
    ((pipeline (initialize_agents ["TAVILY"]) okEnv sampleForm).2 = Except.ok "RESPONSE") ∧
    (Event.download
        ("travel_plan_" ++ replace_spaces sampleForm.destination ++ "_" ++
          sampleForm.start_date.iso ++ ".txt")
        "text/plain" "RESPONSE" ∈ (pipeline (initialize_agents ["TAVILY"]) okEnv sampleForm).1 ∧
     (∀ n m c, Event.download n m c ∈ (pipeline (initialize_agents ["TAVILY"]) okEnv sampleForm).1 →
       n = "travel_plan_" ++ replace_spaces sampleForm.destination ++ "_" ++
         sampleForm.start_date.iso ++ ".txt" ∧
       m = "text/plain" ∧ c = "RESPONSE")) :=
  ⟨rfl, C7_download_plain_text (initialize_agents ["TAVILY"]) okEnv sampleForm "RESPONSE" rfl⟩

end TravelApp
